import Mathlib

/-!
Verification of the Alert_Management_POC monitoring script (`app.py`).

The script polls four system metrics, compares each against a fixed
threshold, and forwards advisory prompts (or free-text chat questions) to a
completion service through a throttled dispatcher that sleeps and retries on
rate-limit failures.  We embed the dispatcher, the prompt builder, the metric
computations and the page's dispatch logic, and prove the specification's
claims about them.
-/

/-- Outcome of one call to the completion service, as observed by the
dispatcher: either a successful response text (`response.text`) or a raised
exception rendered to its textual form (`str(e)`). -/
inductive ApiResult where
  | ok : String → ApiResult
  | exn : String → ApiResult
deriving DecidableEq, Repr

/-- What `send_request_with_throttling` does in the end: return a response
text, propagate an exception (`raise e`), or — when the modelled service
behaviour list runs out while the dispatcher is still retrying — remain
pending (the source's recursion is unbounded in principle). -/
inductive DispatchOutcome where
  | success : String → DispatchOutcome
  | raised : String → DispatchOutcome
  | pending : DispatchOutcome
deriving DecidableEq, Repr

/-- A chat session as created by `model.start_chat(history=[...])`: it carries
only its conversation history. -/
structure ChatSession where
  history : List String
deriving DecidableEq, Repr

/-- `model.start_chat(history=h)` from `app.py` line 33. -/
def start_chat (h : List String) : ChatSession := ⟨h⟩

/-- Observable trace of one `send_request_with_throttling` invocation:
its final outcome, how many service calls it made, the duration of every
`time.sleep` it performed (in order), the `history` argument of every chat
session it opened, and the prompt sent on each call. -/
structure DispatchTrace where
  outcome : DispatchOutcome
  calls : Nat
  sleeps : List Nat
  histories : List (List String)
  prompts : List String
deriving DecidableEq, Repr

/-- The rate-limit test from `app.py` line 44:
`"RATE_LIMIT_EXCEEDED" in str(e)`, a literal substring match on the
exception's textual form. -/
def is_rate_limit (e : String) : Bool :=
  decide ("RATE_LIMIT_EXCEEDED".toList <:+: e.toList)

/-- `send_request_with_throttling` from `app.py` lines 30-50, driven by the
service's behaviour on successive calls (`svc`): each call opens a fresh chat
session with `history=[]` and sends `prompt`; on success the response text is
returned; on an exception whose text contains the rate-limit marker the
dispatcher sleeps 60 and retries the identical prompt; any other exception is
re-raised. -/
def send_request_with_throttling (prompt : String) : (svc : List ApiResult) → DispatchTrace
  | [] => ⟨.pending, 0, [], [], []⟩
  | .ok t :: _ =>
      ⟨.success t, 1, [], [(start_chat []).history], [prompt]⟩
  | .exn e :: rest =>
      if is_rate_limit e then
        let tr := send_request_with_throttling prompt rest
        ⟨tr.outcome, tr.calls + 1, 60 :: tr.sleeps,
          (start_chat []).history :: tr.histories, prompt :: tr.prompts⟩
      else
        ⟨.raised e, 1, [], [(start_chat []).history], [prompt]⟩

/-- The f-string of `get_ai_solution` (`app.py` line 54); the value is
interpolated as its textual form (`str(value)`), with no rounding. -/
def build_prompt (metric_name value : String) : String :=
  "The " ++ metric_name ++ " usage is " ++ value ++
    "%. Provide step-by-step recommendations on how to resolve high " ++
    metric_name ++ " usage."

/-- `get_ai_solution` from `app.py` lines 53-57: build the prompt and send it
through the throttled dispatcher. -/
def get_ai_solution (metric_name value : String) (svc : List ApiResult) : DispatchTrace :=
  send_request_with_throttling (build_prompt metric_name value) svc

/-- The alert threshold from `app.py` line 63: `THRESHOLD = 75`, shared by all
four metrics.  Sampled metric values are Python floats; we model the exact
values as rationals. -/
def THRESHOLD : ℚ := 75

/-- A `psutil.net_io_counters()` snapshot: cumulative bytes received/sent. -/
structure NetCounters where
  bytes_recv : ℚ
  bytes_sent : ℚ

/-- A `psutil.disk_io_counters()` snapshot: cumulative bytes read/written. -/
structure DiskCounters where
  read_bytes : ℚ
  write_bytes : ℚ

/-- `network_usage` from `app.py` line 98: difference of the two snapshot
totals taken one second apart, divided by `1024 * 1024` (bytes to MB/s). -/
def network_usage (net_before net_after : NetCounters) : ℚ :=
  ((net_after.bytes_recv + net_after.bytes_sent)
      - (net_before.bytes_recv + net_before.bytes_sent)) / (1024 * 1024)

/-- `disk_io_usage` from `app.py` line 117: difference of the two snapshot
totals taken one second apart, divided by `1024 * 1024` (bytes to MB/s). -/
def disk_io_usage (disk_before disk_after : DiskCounters) : ℚ :=
  ((disk_after.read_bytes + disk_after.write_bytes)
      - (disk_before.read_bytes + disk_before.write_bytes)) / (1024 * 1024)

/-- The page events a metric section or the chat section can produce:
a warning banner (metric name and raw sampled value), a success banner
("within normal limits"), a dispatch of a prompt to the completion service
via `send_request_with_throttling`, and the chat answer section. -/
inductive Event where
  | warn : String → ℚ → Event
  | normal : String → Event
  | dispatch : String → Event
  | answer : Event
deriving DecidableEq, Repr

/-- Whether a list of page events contains a dispatch to the completion
service. -/
def hasDispatch : List Event → Bool
  | [] => false
  | .dispatch _ :: _ => true
  | _ :: rest => hasDispatch rest

/-- The CPU block of `app.py` lines 66-74: warn and fetch an advisory when
`cpu_usage > THRESHOLD`, otherwise report normal.  `fmt` is Python's `str`
rendering of a float, left abstract. -/
def cpu_section (fmt : ℚ → String) (cpu_usage : ℚ) : List Event :=
  if cpu_usage > THRESHOLD then
    [.warn "CPU" cpu_usage, .dispatch (build_prompt "CPU" (fmt cpu_usage))]
  else
    [.normal "CPU"]

/-- The memory block of `app.py` lines 79-87. -/
def memory_section (fmt : ℚ → String) (memory_usage : ℚ) : List Event :=
  if memory_usage > THRESHOLD then
    [.warn "Memory" memory_usage, .dispatch (build_prompt "Memory" (fmt memory_usage))]
  else
    [.normal "Memory"]

/-- The network block of `app.py` lines 93-106: compute the MB/s figure from
the two counter snapshots, then apply the same threshold test. -/
def network_section (fmt : ℚ → String) (net_before net_after : NetCounters) : List Event :=
  if network_usage net_before net_after > THRESHOLD then
    [.warn "Network" (network_usage net_before net_after),
      .dispatch (build_prompt "Network" (fmt (network_usage net_before net_after)))]
  else
    [.normal "Network"]

/-- The disk block of `app.py` lines 112-125. -/
def disk_section (fmt : ℚ → String) (disk_before disk_after : DiskCounters) : List Event :=
  if disk_io_usage disk_before disk_after > THRESHOLD then
    [.warn "Disk I/O" (disk_io_usage disk_before disk_after),
      .dispatch (build_prompt "Disk I/O" (fmt (disk_io_usage disk_before disk_after)))]
  else
    [.normal "Disk I/O"]

/-- The chatbot block of `app.py` lines 132-138: `if user_question:` — a
dispatch of the raw question plus the answer section when the input is a
non-empty (truthy) string, nothing otherwise. -/
def chat_section (user_question : String) : List Event :=
  if user_question = "" then []
  else [.dispatch user_question, .answer]

/-- Number of (possibly overlapping) occurrences of `needle` in `haystack`:
the positions at which `needle` starts. -/
def countOccs (needle haystack : List Char) : Nat :=
  ((List.range (haystack.length + 1)).filter
    (fun i => decide (needle <+: haystack.drop i))).length

/-- Claim C1: if the service raises rate-limit failures on the first N calls
with prompt P and succeeds on call N+1, `send_request_with_throttling P`
returns the success text, makes exactly N+1 calls (each with the identical
prompt P), and performs exactly N cooldown waits, each of the fixed duration
60 with no backoff growth. -/
theorem dispatcher_rate_limited_then_success (P t : String) (errs : List String)
    (h : ∀ e ∈ errs, is_rate_limit e = true) :
    (send_request_with_throttling P (errs.map ApiResult.exn ++ [ApiResult.ok t])).outcome
        = DispatchOutcome.success t ∧
    (send_request_with_throttling P (errs.map ApiResult.exn ++ [ApiResult.ok t])).calls
        = errs.length + 1 ∧
    (send_request_with_throttling P (errs.map ApiResult.exn ++ [ApiResult.ok t])).sleeps
        = List.replicate errs.length 60 ∧
    (send_request_with_throttling P (errs.map ApiResult.exn ++ [ApiResult.ok t])).prompts
        = List.replicate (errs.length + 1) P := by
  induction errs with
  | nil => simp [send_request_with_throttling]
  | cons e es ih =>
      have he : is_rate_limit e = true := h e (by simp)
      have ih2 := ih (fun x hx => h x (by simp [hx]))
      simp [send_request_with_throttling, he, ih2.1, ih2.2.1, ih2.2.2.1, ih2.2.2.2,
        List.replicate_succ]

/-- Witness for C1 at N = 2: two rate-limited failures, then success. -/
theorem dispatcher_rate_limited_then_success_inst :
    (send_request_with_throttling "p"
        (["429 RATE_LIMIT_EXCEEDED: quota", "RATE_LIMIT_EXCEEDED again"].map ApiResult.exn
          ++ [ApiResult.ok "answer"])).outcome = DispatchOutcome.success "answer" ∧
    (send_request_with_throttling "p"
        (["429 RATE_LIMIT_EXCEEDED: quota", "RATE_LIMIT_EXCEEDED again"].map ApiResult.exn
          ++ [ApiResult.ok "answer"])).calls
        = ["429 RATE_LIMIT_EXCEEDED: quota", "RATE_LIMIT_EXCEEDED again"].length + 1 ∧
    (send_request_with_throttling "p"
        (["429 RATE_LIMIT_EXCEEDED: quota", "RATE_LIMIT_EXCEEDED again"].map ApiResult.exn
          ++ [ApiResult.ok "answer"])).sleeps
        = List.replicate ["429 RATE_LIMIT_EXCEEDED: quota", "RATE_LIMIT_EXCEEDED again"].length 60 ∧
    (send_request_with_throttling "p"
        (["429 RATE_LIMIT_EXCEEDED: quota", "RATE_LIMIT_EXCEEDED again"].map ApiResult.exn
          ++ [ApiResult.ok "answer"])).prompts
        = List.replicate (["429 RATE_LIMIT_EXCEEDED: quota", "RATE_LIMIT_EXCEEDED again"].length + 1) "p" :=
  dispatcher_rate_limited_then_success "p" "answer"
    ["429 RATE_LIMIT_EXCEEDED: quota", "RATE_LIMIT_EXCEEDED again"] (by decide)

/-- Claim C2: a failure whose text does not contain the rate-limit marker is
re-raised unchanged, after exactly one service call, with no cooldown sleep
and no retry (whatever further behaviour the service would have had). -/
theorem dispatcher_propagates_fatal (P e : String) (rest : List ApiResult)
    (h : is_rate_limit e = false) :
    send_request_with_throttling P (ApiResult.exn e :: rest) =
      ⟨.raised e, 1, [], [[]], [P]⟩ := by
  simp [send_request_with_throttling, h, start_chat]

/-- Witness for C2: an authentication-style failure with further service
behaviour pending is propagated with one call and no sleeps. -/
theorem dispatcher_propagates_fatal_inst :
    send_request_with_throttling "p"
        (ApiResult.exn "403 PERMISSION_DENIED" :: [ApiResult.ok "never"]) =
      ⟨.raised "403 PERMISSION_DENIED", 1, [], [[]], ["p"]⟩ :=
  dispatcher_propagates_fatal "p" "403 PERMISSION_DENIED" [ApiResult.ok "never"] (by decide)

/-- Claim C3: the dispatcher treats a failure as rate-limited (sleeping and
retrying) precisely when the literal substring "RATE_LIMIT_EXCEEDED" occurs
in the failure's textual form — a substring match, not a structured code. -/
theorem dispatcher_rate_limit_marker (P e : String) (rest : List ApiResult) :
    (send_request_with_throttling P (ApiResult.exn e :: rest)).sleeps ≠ [] ↔
      "RATE_LIMIT_EXCEEDED".toList <:+: e.toList := by
  by_cases h : is_rate_limit e
  · simp [send_request_with_throttling, h]
    exact of_decide_eq_true h
  · simp [send_request_with_throttling, h]
    simpa [is_rate_limit] using h

/-- Claim C4: every call the dispatcher makes — first attempt and every
retry — opens a chat session whose history is the empty list (one session
per call), and every call sends the original prompt: no conversation state
is carried between calls. -/
theorem dispatcher_fresh_history (P : String) (svc : List ApiResult) :
    (∀ h ∈ (send_request_with_throttling P svc).histories, h = ([] : List String)) ∧
    (send_request_with_throttling P svc).histories.length
      = (send_request_with_throttling P svc).calls ∧
    (∀ q ∈ (send_request_with_throttling P svc).prompts, q = P) := by
  induction svc with
  | nil => simp [send_request_with_throttling]
  | cons r rest ih =>
      cases r with
      | ok t => simp [send_request_with_throttling, start_chat]
      | exn e =>
          by_cases h : is_rate_limit e
          · simp [send_request_with_throttling, h, start_chat, ih.1, ih.2.1, ih.2.2]
            exact ⟨ih.1, ih.2.2⟩
          · simp [send_request_with_throttling, h, start_chat]

/-- Claim C5: the advisory prompt built by `get_ai_solution` is exactly the
template "The {metric_name} usage is {value}%. Provide step-by-step
recommendations on how to resolve high {metric_name} usage.", with the value
interpolated verbatim (no rounding); for metric "CPU" and value 90 the prompt
is the expected concrete string, and `get_ai_solution` dispatches exactly
that prompt. -/
theorem build_prompt_template :
    (∀ name v : String, build_prompt name v =
      "The " ++ name ++ " usage is " ++ v ++
        "%. Provide step-by-step recommendations on how to resolve high " ++
        name ++ " usage.") ∧
    build_prompt "CPU" "90" =
      "The CPU usage is 90%. Provide step-by-step recommendations on how to resolve high CPU usage." ∧
    (∀ name v : String, ∀ svc : List ApiResult,
      get_ai_solution name v svc = send_request_with_throttling (build_prompt name v) svc) :=
  ⟨fun _ _ => rfl, by decide, fun _ _ _ => rfl⟩

/-- Claim C7: each of the four metric sections triggers its advisory
dispatch precisely when the sampled value is strictly greater than the one
shared threshold 75; a value of exactly 75 reports normal and dispatches
nothing, while 75.01 dispatches. -/
theorem threshold_strict_all_metrics (fmt : ℚ → String) :
    (∀ v, hasDispatch (cpu_section fmt v) = true ↔ v > 75) ∧
    (∀ v, hasDispatch (memory_section fmt v) = true ↔ v > 75) ∧
    (∀ b a, hasDispatch (network_section fmt b a) = true ↔ network_usage b a > 75) ∧
    (∀ b a, hasDispatch (disk_section fmt b a) = true ↔ disk_io_usage b a > 75) ∧
    (∀ v, Event.normal "CPU" ∈ cpu_section fmt v ↔ ¬ v > 75) ∧
    hasDispatch (cpu_section fmt 75) = false ∧
    Event.normal "CPU" ∈ cpu_section fmt 75 ∧
    hasDispatch (cpu_section fmt (7501 / 100)) = true := by
  refine ⟨fun v => ?_, fun v => ?_, fun b a => ?_, fun b a => ?_, fun v => ?_, ?_, ?_, ?_⟩
  · by_cases h : (75 : ℚ) < v <;> simp [cpu_section, THRESHOLD, hasDispatch, h]
  · by_cases h : (75 : ℚ) < v <;> simp [memory_section, THRESHOLD, hasDispatch, h]
  · by_cases h : (75 : ℚ) < network_usage b a <;>
      simp [network_section, THRESHOLD, hasDispatch, h]
  · by_cases h : (75 : ℚ) < disk_io_usage b a <;>
      simp [disk_section, THRESHOLD, hasDispatch, h]
  · by_cases h : (75 : ℚ) < v <;> simp [cpu_section, THRESHOLD, hasDispatch, h]
  · norm_num [cpu_section, THRESHOLD, hasDispatch]
  · norm_num [cpu_section, THRESHOLD, hasDispatch]
  · norm_num [cpu_section, THRESHOLD, hasDispatch]

/-- Claim C8: the network and disk usage figures divide the delta of the two
cumulative counter totals by 1048576 = 1024 * 1024; before-counters totaling
0 bytes and after-counters totaling 1048576 bytes give exactly 1 MB/s. -/
theorem delta_usage_computation :
    (∀ b a : NetCounters, network_usage b a =
      ((a.bytes_recv + a.bytes_sent) - (b.bytes_recv + b.bytes_sent)) / 1048576) ∧
    (∀ b a : DiskCounters, disk_io_usage b a =
      ((a.read_bytes + a.write_bytes) - (b.read_bytes + b.write_bytes)) / 1048576) ∧
    network_usage ⟨0, 0⟩ ⟨1048576, 0⟩ = 1 ∧
    disk_io_usage ⟨0, 0⟩ ⟨1048576, 0⟩ = 1 := by
  refine ⟨fun b a => by norm_num [network_usage], fun b a => by norm_num [disk_io_usage],
    by norm_num [network_usage], by norm_num [disk_io_usage]⟩

/-- Claim C9: with an empty chat input (the initial state included) the chat
section produces no events at all — no dispatch and no answer section; a
chat dispatch happens exactly when the input is non-empty. -/
theorem chat_dispatch_only_nonempty :
    chat_section "" = [] ∧
    (∀ q : String, hasDispatch (chat_section q) = true ↔ q ≠ "") := by
  constructor
  · rfl
  · intro q
    by_cases h : q = "" <;> simp [chat_section, h, hasDispatch]

/-- Claim C10: when the network and disk MB/s figures exceed the threshold,
the page invokes the advisory with metric names "Network" and "Disk I/O" and
the MB/s value, and the shared template appends "%" directly after the
value — so those prompts describe an MB/s throughput figure as a
percentage. -/
theorem mbps_prompts_percent (fmt : ℚ → String) (nb na : NetCounters)
    (db da : DiskCounters)
    (hn : network_usage nb na > THRESHOLD) (hd : disk_io_usage db da > THRESHOLD) :
    network_section fmt nb na =
      [.warn "Network" (network_usage nb na),
        .dispatch (build_prompt "Network" (fmt (network_usage nb na)))] ∧
    disk_section fmt db da =
      [.warn "Disk I/O" (disk_io_usage db da),
        .dispatch (build_prompt "Disk I/O" (fmt (disk_io_usage db da)))] ∧
    (∀ name v : String, ∃ pre post : String,
      build_prompt name v = pre ++ (v ++ "%") ++ post) := by
  refine ⟨by simp [network_section, hn], by simp [disk_section, hd], fun name v => ?_⟩
  refine ⟨"The " ++ name ++ " usage is ",
    ". Provide step-by-step recommendations on how to resolve high " ++ name ++ " usage.", ?_⟩
  have hsplit : ("%. Provide step-by-step recommendations on how to resolve high " : String) =
      "%" ++ ". Provide step-by-step recommendations on how to resolve high " := by decide
  have hstep : ∀ tail : String,
      ("%. Provide step-by-step recommendations on how to resolve high " ++ tail)
        = "%" ++ (". Provide step-by-step recommendations on how to resolve high " ++ tail) := by
    intro tail
    rw [← String.append_assoc, ← hsplit]
  simp only [build_prompt, String.append_assoc]
  rw [hstep]

/-- Witness for C10: counter deltas of 2^30 bytes give 1024 MB/s, above the
threshold for both network and disk. -/
theorem mbps_prompts_percent_inst :
    network_section (fun _ => "1024") ⟨0, 0⟩ ⟨1073741824, 0⟩ =
      [.warn "Network" (network_usage ⟨0, 0⟩ ⟨1073741824, 0⟩),
        .dispatch (build_prompt "Network"
          ((fun _ => "1024") (network_usage ⟨0, 0⟩ ⟨1073741824, 0⟩)))] ∧
    disk_section (fun _ => "1024") ⟨0, 0⟩ ⟨1073741824, 0⟩ =
      [.warn "Disk I/O" (disk_io_usage ⟨0, 0⟩ ⟨1073741824, 0⟩),
        .dispatch (build_prompt "Disk I/O"
          ((fun _ => "1024") (disk_io_usage ⟨0, 0⟩ ⟨1073741824, 0⟩)))] ∧
    (∀ name v : String, ∃ pre post : String,
      build_prompt name v = pre ++ (v ++ "%") ++ post) :=
  mbps_prompts_percent (fun _ => "1024") ⟨0, 0⟩ ⟨1073741824, 0⟩ ⟨0, 0⟩ ⟨1073741824, 0⟩
    (by norm_num [network_usage, THRESHOLD]) (by norm_num [disk_io_usage, THRESHOLD])

/-- A needle prefixed at two distinct positions of the haystack gives at
least two counted occurrences. -/
theorem countOccs_two_le (needle haystack : List Char) (i j : Nat) (hij : i < j)
    (hj : j ≤ haystack.length)
    (hi : needle <+: haystack.drop i) (hjp : needle <+: haystack.drop j) :
    2 ≤ countOccs needle haystack := by
  have hmem : ∀ k, k ≤ haystack.length → needle <+: haystack.drop k →
      k ∈ (List.range (haystack.length + 1)).filter
        (fun i => decide (needle <+: haystack.drop i)) := by
    intro k hk hp
    simp only [List.mem_filter, List.mem_range, decide_eq_true_eq]
    exact ⟨Nat.lt_succ_of_le hk, hp⟩
  have hsub : [i, j] ⊆ (List.range (haystack.length + 1)).filter
      (fun i => decide (needle <+: haystack.drop i)) := by
    intro x hx
    rcases List.mem_pair.mp hx with rfl | rfl
    · exact hmem x (le_trans (Nat.le_of_lt hij) hj) hi
    · exact hmem x hj hjp
  have hnd : ([i, j] : List Nat).Nodup := by
    simp [Nat.ne_of_lt hij]
  have hlen := (List.subperm_of_subset hnd hsub).length_le
  simpa [countOccs] using hlen

/-- A needle prefixed at one position of the haystack gives at least one
counted occurrence. -/
theorem countOccs_pos (needle haystack : List Char) (i : Nat)
    (hi : i ≤ haystack.length) (hp : needle <+: haystack.drop i) :
    1 ≤ countOccs needle haystack := by
  have hmem : i ∈ (List.range (haystack.length + 1)).filter
      (fun k => decide (needle <+: haystack.drop k)) := by
    simp only [List.mem_filter, List.mem_range, decide_eq_true_eq]
    exact ⟨Nat.lt_succ_of_le hi, hp⟩
  have := List.length_pos.mpr (List.ne_nil_of_mem hmem)
  simpa [countOccs] using this

/-- The character list of the built prompt, as a concatenation of the
template's fixed pieces and the interpolated name and value. -/
theorem build_prompt_toList (name v : String) :
    (build_prompt name v).toList =
      "The ".toList ++ name.toList ++ " usage is ".toList ++ v.toList ++
        "%. Provide step-by-step recommendations on how to resolve high ".toList ++
        name.toList ++ " usage.".toList := by
  simp [build_prompt, String.toList, String.data_append]

/-- Length of the built prompt: 84 fixed characters plus the name twice and
the value once. -/
theorem build_prompt_length (name v : String) :
    (build_prompt name v).toList.length = 84 + 2 * name.length + v.length := by
  have h1 : ("The ".toList).length = 4 := rfl
  have h2 : (" usage is ".toList).length = 10 := rfl
  have h3 : ("%. Provide step-by-step recommendations on how to resolve high ".toList).length = 63 := rfl
  have h4 : (" usage.".toList).length = 7 := rfl
  have hn : (name.toList).length = name.length := rfl
  have hv : (v.toList).length = v.length := rfl
  rw [build_prompt_toList]
  simp [List.length_append, h1, h2, h3, h4, hn, hv]
  omega

/-- The metric name occurs at template position 4 (after "The "). -/
theorem name_occurs_first (name v : String) :
    name.toList <+: ((build_prompt name v).toList.drop 4) := by
  rw [build_prompt_toList]
  simp only [List.append_assoc]
  rw [show (4 : Nat) = ("The ".toList).length from rfl, List.drop_left]
  exact List.prefix_append _ _

/-- The value occurs at template position 14 + |name| (after "The {name}
usage is "). -/
theorem value_occurs (name v : String) :
    v.toList <+: ((build_prompt name v).toList.drop (14 + name.length)) := by
  have h1 : ("The ".toList).length = 4 := rfl
  have h2 : (" usage is ".toList).length = 10 := rfl
  have hn : (name.toList).length = name.length := rfl
  have hA : (("The ".toList ++ name.toList ++ " usage is ".toList) : List Char).length
      = 14 + name.length := by
    simp [List.length_append, h1, h2, hn]
    omega
  rw [build_prompt_toList]
  rw [show ("The ".toList ++ name.toList ++ " usage is ".toList ++ v.toList ++
      "%. Provide step-by-step recommendations on how to resolve high ".toList ++
      name.toList ++ " usage.".toList : List Char)
    = ("The ".toList ++ name.toList ++ " usage is ".toList) ++
      (v.toList ++ ("%. Provide step-by-step recommendations on how to resolve high ".toList ++
        (name.toList ++ " usage.".toList))) from by simp [List.append_assoc]]
  rw [← hA, List.drop_left]
  exact List.prefix_append _ _

/-- The metric name occurs a second time, at template position
77 + |name| + |value| (after "... resolve high "). -/
theorem name_occurs_second (name v : String) :
    name.toList <+: ((build_prompt name v).toList.drop (77 + name.length + v.length)) := by
  have h1 : ("The ".toList).length = 4 := rfl
  have h2 : (" usage is ".toList).length = 10 := rfl
  have h3 : ("%. Provide step-by-step recommendations on how to resolve high ".toList).length = 63 := rfl
  have hn : (name.toList).length = name.length := rfl
  have hv : (v.toList).length = v.length := rfl
  have hA : (("The ".toList ++ name.toList ++ " usage is ".toList ++ v.toList ++
      "%. Provide step-by-step recommendations on how to resolve high ".toList) : List Char).length
      = 77 + name.length + v.length := by
    simp [List.length_append, h1, h2, h3, hn, hv]
    omega
  rw [build_prompt_toList]
  rw [show ("The ".toList ++ name.toList ++ " usage is ".toList ++ v.toList ++
      "%. Provide step-by-step recommendations on how to resolve high ".toList ++
      name.toList ++ " usage.".toList : List Char)
    = ("The ".toList ++ name.toList ++ " usage is ".toList ++ v.toList ++
        "%. Provide step-by-step recommendations on how to resolve high ".toList) ++
      (name.toList ++ " usage.".toList) from by simp [List.append_assoc]]
  rw [← hA, List.drop_left]
  exact List.prefix_append _ _

/-- Claim C6 counterexample: for metric name "CPU" and value "90" the built
prompt contains "CPU" twice, not exactly once — the template interpolates
the metric name at two positions. -/
theorem prompt_name_count_cex :
    countOccs "CPU".toList (build_prompt "CPU" "90").toList = 2 ∧
    countOccs "CPU".toList (build_prompt "CPU" "90").toList ≠ 1 := by
  constructor <;> decide

/-- Claim C6 (amended): the built prompt contains the metric name at both
expected template positions (4 and 77 + |name| + |value|) and the value at
its expected template position (14 + |name|); hence the name occurs at least
twice — not exactly once — and the value at least once, and for
non-overlapping inputs such as name "CPU" and value "90" the counts are
exactly two and one. -/
theorem prompt_occurrence_counts :
    (∀ name v : String, name.toList <+: ((build_prompt name v).toList.drop 4)) ∧
    (∀ name v : String, v.toList <+: ((build_prompt name v).toList.drop (14 + name.length))) ∧
    (∀ name v : String,
      name.toList <+: ((build_prompt name v).toList.drop (77 + name.length + v.length))) ∧
    (∀ name v : String, 2 ≤ countOccs name.toList (build_prompt name v).toList) ∧
    (∀ name v : String, 1 ≤ countOccs v.toList (build_prompt name v).toList) ∧
    countOccs "CPU".toList (build_prompt "CPU" "90").toList = 2 ∧
    countOccs "90".toList (build_prompt "CPU" "90").toList = 1 := by
  refine ⟨name_occurs_first, value_occurs, name_occurs_second,
    fun name v => ?_, fun name v => ?_, by decide, by decide⟩
  · refine countOccs_two_le _ _ 4 (77 + name.length + v.length) (by omega) ?_
      (name_occurs_first name v) (name_occurs_second name v)
    rw [build_prompt_length]
    omega
  · refine countOccs_pos _ _ (14 + name.length) ?_ (value_occurs name v)
    rw [build_prompt_length]
    omega
